import Mathlib

/-!
Verification development for the kraken.js client library (KrakenClient).

The source file holds a class-based implementation of the client (the
module's export) together with an older closure-based variant of the same
design; the two share the response-normalization and signing logic verbatim,
and differ only in nonce management, where the class-based implementation
(a counter seeded from construction time) is the current one and is the one
embedded here.

The embedding models:
  * JSON/JavaScript values produced by JSON.parse, with JavaScript
    truthiness and member access (member access on null throws, modelled
    by Except);
  * the response-normalization logic of _rawRequest (error-array scan,
    RemoteError / UnknownRemoteError / success classification, and the
    dual callback/promise delivery);
  * the signing pipeline of _getMessageSignature (qs.stringify
    serialization, SHA-256 / HMAC-SHA-512 marshalling through Node's
    'binary' (latin1) string encoding, base64), with the cryptographic
    primitives themselves kept abstract;
  * the dispatch (api), public/private request construction, and the nonce
    counter of _privateMethod.
-/

/-- JSON values as produced by JSON.parse (numbers restricted to integers,
which suffices for every property considered here). -/
inductive JSValue where
  | jnull
  | jbool (b : Bool)
  | jnum (n : Int)
  | jstr (s : String)
  | jarr (es : List JSValue)
  | jobj (kvs : List (String × JSValue))

/-- JavaScript ToBoolean on a JSON value: null, false, 0 and the empty
string are falsy; every array and object (even empty) is truthy. -/
def jsTruthy : JSValue → Bool
  | .jnull => false
  | .jbool b => b
  | .jnum n => n != 0
  | .jstr s => s != ""
  | .jarr _ => true
  | .jobj _ => true

/-- First-match lookup in a key/value list (JavaScript object property
read; objects have no duplicate keys, lists used here are built that way). -/
def lookupKV {α : Type} : List (String × α) → String → Option α
  | [], _ => none
  | (k', v) :: rest, k => if k' = k then some v else lookupKV rest k

/-- JavaScript object property assignment: replace the value in place when
the key is present (keeping its insertion position), else append. -/
def setKV {α : Type} : List (String × α) → String → α → List (String × α)
  | [], k, v => [(k, v)]
  | (k', v') :: rest, k, v => if k' = k then (k, v) :: rest else (k', v') :: setKV rest k v

/-- JavaScript member access `data.k`: throws (TypeError) on null, yields
the property or undefined (none) otherwise. -/
def getField : JSValue → String → Except Unit (Option JSValue)
  | .jnull, _ => .error ()
  | .jobj kvs, k => .ok (lookupKV kvs k)
  | _, _ => .ok none

/-- One step of the `data.error.forEach` scan in _rawRequest: on a string
element whose first character is 'E', overwrite the accumulator with the
element minus that character (forEach ignores the callback's return value,
so the scan never breaks early); `charAt` on a non-string throws. -/
def scanStep (acc : Option String) : JSValue → Except Unit (Option String)
  | .jstr s => .ok (if s.data.head? = some 'E' then some (String.mk s.data.tail) else acc)
  | _ => .error ()

/-- The full forEach scan over the error array, starting from
`krakenError = null`. -/
def scanKrakenError (es : List JSValue) : Except Unit (Option String) :=
  es.foldlM scanStep none

/-- JavaScript `data.result || data` (rf is the looked-up `result`
property, none standing for undefined). -/
def jsOr (rf : Option JSValue) (data : JSValue) : JSValue :=
  match rf with
  | some r => if jsTruthy r then r else data
  | none => data

/-- Outcome of classifying one parsed response body. -/
inductive Classified where
  | remoteError (code : String)
  | unknownError (raw : List JSValue)
  | success (v : JSValue)

/-- Classification of a parsed body in _rawRequest: the error branch is
taken exactly when `data.error && Array.isArray(data.error) &&
data.error.length` holds, i.e. when the error property is a non-empty
array; then the forEach scan runs and `if (krakenError)` (string
truthiness) picks RemoteError over UnknownRemoteError; otherwise the call
succeeds with `data.result || data`. -/
def classifyBody (data : JSValue) : Except Unit Classified := do
  let ef ← getField data "error"
  match ef with
  | some (.jarr es) =>
    if es.length ≠ 0 then do
      let ke ← scanKrakenError es
      match ke with
      | some code => if code ≠ "" then pure (.remoteError code) else pure (.unknownError es)
      | none => pure (.unknownError es)
    else do
      let rf ← getField data "result"
      pure (.success (jsOr rf data))
  | _ => do
    let rf ← getField data "result"
    pure (.success (jsOr rf data))

/-- Errors produced by one call, carrying the payload each Error message is
built from in _rawRequest. -/
inductive KrakenError where
  | serverError (raw : String)
  | parseError (body : String)
  | remoteError (code : String)
  | unknownError (raw : List JSValue)

/-- How the Bluebird promise created by _rawRequest completes. -/
inductive PromiseResult where
  | resolvedNone
  | resolvedSome (v : JSValue)
  | rejected (e : KrakenError)

/-- What one run of the _rawRequest response handler delivers: the promise
completion, and the (error, value) pair handed to the callback when one was
invoked. -/
structure Delivery where
  promise : PromiseResult
  callbackArgs : Option (Option KrakenError × Option JSValue)

/-- The failure-delivery block repeated in every error branch of
_rawRequest: with a callback, resolve the promise with no value and call
the callback with (error, null); without one, reject the promise. -/
def deliverFailure (e : KrakenError) (cb : Bool) : Delivery :=
  if cb then { promise := .resolvedNone, callbackArgs := some (some e, none) }
  else { promise := .rejected e, callbackArgs := none }

/-- The success branch of _rawRequest: resolve the promise with
`data.result || data` unconditionally, and additionally call the callback
with (null, that value) when one is present. -/
def deliverSuccess (v : JSValue) (cb : Bool) : Delivery :=
  { promise := .resolvedSome v, callbackArgs := if cb then some (none, some v) else none }

/-- The three outcomes the transport callback of _rawRequest can see:
a transport error, a body JSON.parse rejects, or a parsed body. -/
inductive CallOutcome where
  | transportErr (raw : String)
  | parseFail (body : String)
  | parsed (data : JSValue)

/-- The response handler of _rawRequest, as a function from the transport
outcome and callback presence to the delivery performed; Except.error marks
the uncaught TypeError paths (member access on null, charAt on a
non-string error entry). -/
def handleOutcome (o : CallOutcome) (cb : Bool) : Except Unit Delivery :=
  match o with
  | .transportErr raw => .ok (deliverFailure (.serverError raw) cb)
  | .parseFail body => .ok (deliverFailure (.parseError body) cb)
  | .parsed data =>
    (classifyBody data).map fun c =>
      match c with
      | .remoteError code => deliverFailure (.remoteError code) cb
      | .unknownError raw => deliverFailure (.unknownError raw) cb
      | .success v => deliverSuccess v cb

/-- Values a request parameter can hold (string or number; nonces are
numbers unless the caller supplies a string). -/
inductive ParamVal where
  | pstr (s : String)
  | pnum (n : Nat)

/-- JavaScript String() of a parameter value (integers print in decimal). -/
def valStr : ParamVal → String
  | .pstr s => s
  | .pnum n => Nat.repr n

/-- JavaScript truthiness of a possibly-absent parameter value, as tested
by `if (!params.nonce)`. -/
def paramTruthy : Option ParamVal → Bool
  | none => false
  | some (.pstr s) => s != ""
  | some (.pnum n) => n != 0

/-- UTF-8 encoding of one code point. -/
def utf8EncodeChar (n : Nat) : List Nat :=
  if n < 0x80 then [n]
  else if n < 0x800 then [0xC0 + n / 64, 0x80 + n % 64]
  else if n < 0x10000 then [0xE0 + n / 4096, 0x80 + n / 64 % 64, 0x80 + n % 64]
  else [0xF0 + n / 262144, 0x80 + n / 4096 % 64, 0x80 + n / 64 % 64, 0x80 + n % 64]

/-- UTF-8 encoding of a string (the default encoding Node's hash.update
applies to string input). -/
def utf8Encode (s : String) : List Nat :=
  (s.data.map fun c => utf8EncodeChar c.toNat).flatten

/-- Uppercase hex digit. -/
def hexDigit (n : Nat) : Char :=
  "0123456789ABCDEF".data.getD n '0'

/-- Percent-escape of one byte, uppercase hex as qs produces. -/
def percentByte (b : Nat) : String :=
  String.mk ['%', hexDigit (b / 16 % 16), hexDigit (b % 16)]

/-- The characters qs's RFC 3986 encoder leaves unescaped: alphanumerics
and - . _ ~ . -/
def qsUnreserved (n : Nat) : Bool :=
  (0x30 ≤ n && n ≤ 0x39) || (0x41 ≤ n && n ≤ 0x5A) || (0x61 ≤ n && n ≤ 0x7A) ||
    n == 0x2D || n == 0x2E || n == 0x5F || n == 0x7E

/-- qs percent-encoding of one string (UTF-8 bytes of every reserved
character percent-escaped). -/
def qsEncode (s : String) : String :=
  String.join (s.data.map fun c =>
    if qsUnreserved c.toNat then String.mk [c]
    else String.join ((utf8EncodeChar c.toNat).map percentByte))

/-- qs.stringify of a flat parameter object: key=value pairs joined by &,
in the object's insertion order, keys and values percent-encoded. -/
def stringifyParams (ps : List (String × ParamVal)) : String :=
  String.intercalate "&" (ps.map fun kv => qsEncode kv.1 ++ "=" ++ qsEncode (valStr kv.2))

/-- The base64 alphabet. -/
def b64Alphabet : List Char :=
  "ABCDEFGHIJKLMNOPQRSTUVWXYZabcdefghijklmnopqrstuvwxyz0123456789+/".data

/-- Character for one 6-bit group. -/
def b64Char (n : Nat) : Char :=
  b64Alphabet.getD n 'A'

/-- Standard base64 encoding of a byte list (digest('base64')). -/
def base64Encode : List Nat → String
  | [] => ""
  | [a] => String.mk [b64Char (a / 4), b64Char (a % 4 * 16), '=', '=']
  | [a, b] => String.mk [b64Char (a / 4), b64Char (a % 4 * 16 + b / 16), b64Char (b % 16 * 4), '=']
  | a :: b :: c :: rest =>
    String.mk [b64Char (a / 4), b64Char (a % 4 * 16 + b / 16),
      b64Char (b % 16 * 4 + c / 64), b64Char (c % 64)] ++ base64Encode rest

/-- Value of one base64 character, none for padding or foreign characters. -/
def b64Val (c : Char) : Option Nat :=
  let i := b64Alphabet.indexOf c
  if i < 64 then some i else none

/-- Regroup 6-bit values into bytes, dropping leftover bits. -/
def sextetsToBytes : List Nat → List Nat
  | a :: b :: c :: d :: rest =>
    (a * 4 + b / 16) :: (b % 16 * 16 + c / 4) :: (c % 4 * 64 + d) :: sextetsToBytes rest
  | [a, b, c] => [a * 4 + b / 16, b % 16 * 16 + c / 4]
  | [a, b] => [a * 4 + b / 16]
  | _ => []

/-- Base64 decoding of a string into bytes (Buffer.from(s, 'base64')). -/
def base64Decode (s : String) : List Nat :=
  sextetsToBytes (s.data.filterMap b64Val)

/-- Node's 'binary' (latin1) decoding: one character per byte. -/
def latin1Decode (bs : List Nat) : String :=
  String.mk (bs.map fun b => Char.ofNat (b % 256))

/-- Node's 'binary' (latin1) encoding of a string: low byte of each code
point. -/
def latin1Encode (s : String) : List Nat :=
  s.data.map fun c => c.toNat % 256

/-- The signing routine _getMessageSignature: serialize the request with
qs.stringify, decode the configured secret from base64, hash the nonce
(coerced to its string form by JavaScript +) concatenated with the
serialized body under SHA-256, take that digest as a 'binary' (latin1)
string, prepend the path, and return the base64 HMAC-SHA-512 of the
result under the decoded secret. The two cryptographic primitives are
abstract byte-list functions. -/
def getMessageSignature (sha256 : List Nat → List Nat)
    (hmacSha512 : List Nat → List Nat → List Nat)
    (secretB64 : String) (path : String) (request : List (String × ParamVal))
    (nonce : ParamVal) : String :=
  let message := stringifyParams request
  let secret := base64Decode secretB64
  let hash_digest := latin1Decode (sha256 (utf8Encode (valStr nonce ++ message)))
  base64Encode (hmacSha512 secret (latin1Encode (path ++ hash_digest)))

/-- Modelled on the specification's wording of the signing algorithm: the
signature is base64(HMAC-SHA512(key = decoded secret, message = path as
raw bytes ++ SHA256(decimal nonce string ++ URL-encoded params) as raw
bytes)). Stated independently of getMessageSignature so the two can be
compared. -/
def signatureSpec (sha256 : List Nat → List Nat)
    (hmacSha512 : List Nat → List Nat → List Nat)
    (secretB64 : String) (path : String) (request : List (String × ParamVal))
    (nonce : Nat) : String :=
  base64Encode (hmacSha512 (base64Decode secretB64)
    (path.data.map Char.toNat ++ sha256 (utf8Encode (Nat.repr nonce ++ stringifyParams request))))

/-- JavaScript `a || b` for an optional string field (empty string is
falsy). -/
def jsOrStr (a : Option String) (b : String) : String :=
  match a with
  | some s => if s = "" then b else s
  | none => b

/-- JavaScript `a || b` for an optional numeric field (0 is falsy). -/
def jsOrNat (a : Option Nat) (b : Nat) : Nat :=
  match a with
  | some n => if n = 0 then b else n
  | none => b

/-- The immutable _config record built by the constructor. -/
structure Config where
  url : String
  version : String
  key : String
  secret : String
  otp : Option String
  timeoutMS : Nat

/-- The per-instance mutable state: the configuration (never written after
construction) and _lastNonce. -/
structure ClientState where
  config : Config
  lastNonce : Nat

/-- The recognized fields of the constructor's options object. -/
structure KrakenOptions where
  version : Option String := none
  otp : Option String := none
  timeout : Option Nat := none

/-- The KrakenClient constructor: fixed base url, version and timeout
defaulted through JavaScript ||, and _lastNonce seeded with
Date.now() * 1000 (millisecond clock spoofed to microsecond granularity),
where nowMs is the constructor-time clock reading. -/
def mkClient (key secret : String) (options : KrakenOptions) (nowMs : Nat) : ClientState :=
  { config :=
      { url := "https://api.kraken.com"
        version := jsOrStr options.version "0"
        key := key
        secret := secret
        otp := options.otp
        timeoutMS := jsOrNat options.timeout 5000 }
    lastNonce := nowMs * 1000 }

/-- The outbound HTTP POST assembled by _rawRequest before it reaches the
transport. -/
structure HttpRequest where
  url : String
  headers : List (String × String)
  form : List (String × ParamVal)
  timeoutMS : Nat

/-- The request-construction half of _rawRequest: set the fixed User-Agent
on the supplied headers and package url, form body and timeout. (The
response-handling half is handleOutcome, since the transport between the
two is an external collaborator.) -/
def rawRequest (config : Config) (url : String) (headers : List (String × String))
    (params : List (String × ParamVal)) : HttpRequest :=
  { url := url
    headers := setKV headers "User-Agent" "Kraken Javascript API Client"
    form := params
    timeoutMS := config.timeoutMS }

/-- The public-call path _publicMethod: no auth headers, url under
/public/. -/
def publicMethod (st : ClientState) (method : String)
    (params : List (String × ParamVal)) : HttpRequest :=
  let config := st.config
  let path := "/" ++ config.version ++ "/public/" ++ method
  let url := config.url ++ path
  rawRequest config url [] params

/-- The otp injection of _privateMethod: `if (config.otp !== undefined)
params.otp = config.otp`. -/
def injectOtp (config : Config) (params : List (String × ParamVal)) :
    List (String × ParamVal) :=
  match config.otp with
  | some o => setKV params "otp" (.pstr o)
  | none => params

/-- The private-call path _privateMethod: when `params.nonce` is falsy,
allocate a nonce (last issued plus one, or a time-derived value on the
dead branch where _lastNonce is 0), write it into params and into
_lastNonce; inject otp; then sign the finalized path and params and attach
the API-Key / API-Sign headers. Returns the built request and the
post-call state. -/
def privateMethod (sha256 : List Nat → List Nat)
    (hmacSha512 : List Nat → List Nat → List Nat)
    (st : ClientState) (nowMs : Nat) (method : String)
    (params : List (String × ParamVal)) : HttpRequest × ClientState :=
  let config := st.config
  let path := "/" ++ config.version ++ "/private/" ++ method
  let url := config.url ++ path
  let (params1, lastNonce1) :=
    if paramTruthy (lookupKV params "nonce") then (params, st.lastNonce)
    else
      let nonce := if st.lastNonce ≠ 0 then st.lastNonce + 1 else nowMs * 1000
      (setKV params "nonce" (.pnum nonce), nonce)
  let params2 := injectOtp config params1
  let signature := getMessageSignature sha256 hmacSha512 config.secret path params2
    ((lookupKV params2 "nonce").getD (.pnum 0))
  let headers := [("API-Key", config.key), ("API-Sign", signature)]
  (rawRequest config url headers params2, { st with lastNonce := lastNonce1 })

/-- The static public catalog AVAILABLE_METHODS.public. -/
def AVAILABLE_METHODS_public : List String :=
  ["Time", "Assets", "AssetPairs", "Ticker", "Depth", "Trades", "Spread", "OHLC"]

/-- The static private catalog AVAILABLE_METHODS.private. -/
def AVAILABLE_METHODS_private : List String :=
  ["Balance", "TradeBalance", "OpenOrders", "ClosedOrders", "QueryOrders",
   "TradesHistory", "QueryTrades", "OpenPositions", "Ledgers", "QueryLedgers",
   "TradeVolume", "AddOrder", "CancelOrder", "DepositMethods", "DepositAddresses",
   "DepositStatus", "WithdrawInfo", "Withdraw", "WithdrawStatus", "WithdrawCancel"]

/-- Result of the synchronous phase of api(): a built request (with the
state after any nonce allocation), or the synchronously thrown Error for
an unknown method. -/
inductive ApiCall where
  | request (req : HttpRequest) (st : ClientState)
  | thrown (msg : String)

/-- The dispatcher api(): membership in the public catalog, then the
private catalog (indexOf !== -1), else throw before building any request. -/
def api (sha256 : List Nat → List Nat) (hmacSha512 : List Nat → List Nat → List Nat)
    (st : ClientState) (nowMs : Nat) (method : String)
    (params : List (String × ParamVal)) : ApiCall :=
  if AVAILABLE_METHODS_public.contains method then
    .request (publicMethod st method params) st
  else if AVAILABLE_METHODS_private.contains method then
    let (req, st') := privateMethod sha256 hmacSha512 st nowMs method params
    .request req st'
  else
    .thrown (method ++ " is not a valid API method.")

/-- The nonce transmitted in a built request's form body (0 when absent,
which the theorems rule out). -/
def extractNonce (req : HttpRequest) : Nat :=
  match lookupKV req.form "nonce" with
  | some (.pnum n) => n
  | _ => 0

/-- A run of successive private calls with an empty parameter bag (no
caller-supplied nonce at each call), one per clock reading in nows,
threading the client state; yields the transmitted nonces in order. -/
def issueCalls (sha256 : List Nat → List Nat)
    (hmacSha512 : List Nat → List Nat → List Nat) (method : String) :
    ClientState → List Nat → List Nat
  | _, [] => []
  | st, nowMs :: rest =>
    let (req, st') := privateMethod sha256 hmacSha512 st nowMs method []
    extractNonce req :: issueCalls sha256 hmacSha512 method st' rest

/-- Whether a looked-up error field is a non-empty array — the exact shape
that sends _rawRequest into its error branch. -/
def isNonEmptyArr : Option JSValue → Bool
  | some (.jarr (_ :: _)) => true
  | _ => false

/-- Whether a classification is one of the two error outcomes. -/
def isErrorClass : Classified → Bool
  | .success _ => false
  | _ => true

theorem exbind_ok {ε α β : Type} (a : α) (f : α → Except ε β) :
    (Except.ok a >>= f) = f a := rfl

theorem exbind_error {ε α β : Type} (e : ε) (f : α → Except ε β) :
    ((Except.error e : Except ε α) >>= f) = .error e := rfl

theorem lookupKV_setKV_self {α : Type} (ps : List (String × α)) (k : String) (v : α) :
    lookupKV (setKV ps k v) k = some v := by
  induction ps with
  | nil => simp [setKV, lookupKV]
  | cons p rest ih =>
    obtain ⟨k', v'⟩ := p
    by_cases h : k' = k
    · subst h; simp [setKV, lookupKV]
    · simp [setKV, lookupKV, h, ih]

theorem lookupKV_setKV_other {α : Type} (ps : List (String × α)) (k k' : String) (v : α)
    (h : k' ≠ k) : lookupKV (setKV ps k' v) k = lookupKV ps k := by
  induction ps with
  | nil => simp [setKV, lookupKV, h]
  | cons p rest ih =>
    obtain ⟨k'', v''⟩ := p
    by_cases h2 : k'' = k'
    · subst h2; simp [setKV, lookupKV, h]
    · by_cases h3 : k'' = k
      · subst h3; simp [setKV, lookupKV, h2]
      · simp [setKV, lookupKV, h2, h3, ih]

set_option maxRecDepth 4096 in
theorem char_toNat_ofNat_lt : ∀ b : Nat, b < 256 → (Char.ofNat b).toNat = b := by decide

theorem latin1Encode_append_decode (p : String) (H : List Nat)
    (hp : ∀ c ∈ p.data, c.toNat < 256) (hH : ∀ b ∈ H, b < 256) :
    latin1Encode (p ++ latin1Decode H) = p.data.map Char.toNat ++ H := by
  obtain ⟨pd⟩ := p
  have hdata : (String.mk pd ++ latin1Decode H).data
      = pd ++ H.map (fun b => Char.ofNat (b % 256)) := rfl
  simp only [latin1Encode, hdata, List.map_append, List.map_map]
  have h1 : pd.map (fun c => c.toNat % 256) = pd.map Char.toNat :=
    List.map_congr_left (fun c hc => Nat.mod_eq_of_lt (hp c hc))
  have h2 : H.map ((fun c => c.toNat % 256) ∘ fun b => Char.ofNat (b % 256)) = H := by
    have hid : ∀ b ∈ H, ((fun c : Char => c.toNat % 256) ∘ fun b => Char.ofNat (b % 256)) b
        = id b := by
      intro b hb
      have hlt := hH b hb
      simp only [Function.comp, id]
      rw [Nat.mod_eq_of_lt hlt, char_toNat_ofNat_lt b hlt, Nat.mod_eq_of_lt hlt]
    rw [List.map_congr_left hid, List.map_id]
  rw [h1, h2]

theorem getField_result_ok (data : JSValue) (ef : Option JSValue)
    (hef : getField data "error" = .ok ef) :
    ∃ rf, getField data "result" = .ok rf := by
  cases data <;> first
    | exact ⟨_, rfl⟩
    | (simp [getField] at hef)

theorem classifyBody_success (data : JSValue) (ef rf : Option JSValue)
    (hef : getField data "error" = .ok ef)
    (hne : isNonEmptyArr ef = false)
    (hrf : getField data "result" = .ok rf) :
    classifyBody data = .ok (.success (jsOr rf data)) := by
  unfold classifyBody
  rw [hef, exbind_ok]
  cases ef with
  | none => dsimp only; rw [hrf, exbind_ok]; rfl
  | some v =>
    cases v with
    | jarr es =>
      cases es with
      | nil =>
        dsimp only
        rw [if_neg (by simp), hrf, exbind_ok]
        rfl
      | cons e es' => simp [isNonEmptyArr] at hne
    | jnull => dsimp only; rw [hrf, exbind_ok]; rfl
    | jbool b => dsimp only; rw [hrf, exbind_ok]; rfl
    | jnum n => dsimp only; rw [hrf, exbind_ok]; rfl
    | jstr s => dsimp only; rw [hrf, exbind_ok]; rfl
    | jobj kvs => dsimp only; rw [hrf, exbind_ok]; rfl

theorem classifyBody_err_shape (data : JSValue) (ef : Option JSValue) (c : Classified)
    (hef : getField data "error" = .ok ef)
    (hc : classifyBody data = .ok c)
    (herr : isErrorClass c = true) :
    isNonEmptyArr ef = true := by
  by_cases hne : isNonEmptyArr ef = true
  · exact hne
  · obtain ⟨rf, hrf⟩ := getField_result_ok data ef hef
    have hs := classifyBody_success data ef rf hef (by simpa using hne) hrf
    rw [hs] at hc
    injection hc with hc'
    rw [← hc'] at herr
    simp [isErrorClass] at herr

theorem lookupKV_injectOtp_nonce (config : Config) (ps : List (String × ParamVal)) :
    lookupKV (injectOtp config ps) "nonce" = lookupKV ps "nonce" := by
  unfold injectOtp
  cases config.otp with
  | none => rfl
  | some o => exact lookupKV_setKV_other _ _ _ _ (by decide)

theorem privateMethod_fresh (sha256 : List Nat → List Nat)
    (hmacSha512 : List Nat → List Nat → List Nat) (st : ClientState) (nowMs : Nat)
    (method : String) (params : List (String × ParamVal))
    (hn : paramTruthy (lookupKV params "nonce") = false)
    (h0 : st.lastNonce ≠ 0) :
    (privateMethod sha256 hmacSha512 st nowMs method params).2
        = { st with lastNonce := st.lastNonce + 1 } ∧
    (privateMethod sha256 hmacSha512 st nowMs method params).1.form
        = injectOtp st.config (setKV params "nonce" (.pnum (st.lastNonce + 1))) ∧
    lookupKV (privateMethod sha256 hmacSha512 st nowMs method params).1.form "nonce"
        = some (.pnum (st.lastNonce + 1)) ∧
    lookupKV (privateMethod sha256 hmacSha512 st nowMs method params).1.headers "API-Sign"
        = some (getMessageSignature sha256 hmacSha512 st.config.secret
            ("/" ++ st.config.version ++ "/private/" ++ method)
            (privateMethod sha256 hmacSha512 st nowMs method params).1.form
            (.pnum (st.lastNonce + 1))) := by
  have hl : lookupKV (injectOtp st.config (setKV params "nonce" (.pnum (st.lastNonce + 1))))
      "nonce" = some (.pnum (st.lastNonce + 1)) := by
    rw [lookupKV_injectOtp_nonce]
    exact lookupKV_setKV_self params "nonce" _
  have E : privateMethod sha256 hmacSha512 st nowMs method params
      = (rawRequest st.config
          (st.config.url ++ ("/" ++ st.config.version ++ "/private/" ++ method))
          [("API-Key", st.config.key),
           ("API-Sign",
             getMessageSignature sha256 hmacSha512 st.config.secret
               ("/" ++ st.config.version ++ "/private/" ++ method)
               (injectOtp st.config (setKV params "nonce" (.pnum (st.lastNonce + 1))))
               (.pnum (st.lastNonce + 1)))]
          (injectOtp st.config (setKV params "nonce" (.pnum (st.lastNonce + 1)))),
         { st with lastNonce := st.lastNonce + 1 }) := by
    unfold privateMethod
    rw [hn]
    rw [if_neg (by simp), if_pos h0]
    dsimp only
    rw [hl]
    rfl
  rw [E]
  exact ⟨rfl, rfl, hl, rfl⟩

theorem privateMethod_supplied (sha256 : List Nat → List Nat)
    (hmacSha512 : List Nat → List Nat → List Nat) (st : ClientState) (nowMs : Nat)
    (method : String) (params : List (String × ParamVal))
    (hn : paramTruthy (lookupKV params "nonce") = true) :
    (privateMethod sha256 hmacSha512 st nowMs method params).2 = st ∧
    (privateMethod sha256 hmacSha512 st nowMs method params).1.form
        = injectOtp st.config params ∧
    lookupKV (privateMethod sha256 hmacSha512 st nowMs method params).1.form "nonce"
        = lookupKV params "nonce" := by
  have E : privateMethod sha256 hmacSha512 st nowMs method params
      = (rawRequest st.config
          (st.config.url ++ ("/" ++ st.config.version ++ "/private/" ++ method))
          [("API-Key", st.config.key),
           ("API-Sign",
             getMessageSignature sha256 hmacSha512 st.config.secret
               ("/" ++ st.config.version ++ "/private/" ++ method)
               (injectOtp st.config params)
               ((lookupKV (injectOtp st.config params) "nonce").getD (.pnum 0)))]
          (injectOtp st.config params),
         st) := by
    unfold privateMethod
    rw [hn]
    rw [if_pos (by simp)]
  rw [E]
  exact ⟨rfl, rfl, lookupKV_injectOtp_nonce st.config params⟩

theorem issueCalls_formula (sha256 : List Nat → List Nat)
    (hmacSha512 : List Nat → List Nat → List Nat) (method : String) :
    ∀ (nows : List Nat) (st : ClientState), st.lastNonce ≠ 0 →
    issueCalls sha256 hmacSha512 method st nows
      = (List.range nows.length).map fun i => st.lastNonce + (i + 1) := by
  intro nows
  induction nows with
  | nil => intro st _; rfl
  | cons nowMs rest ih =>
    intro st h0
    obtain ⟨h1, h2, h3, h4⟩ := privateMethod_fresh sha256 hmacSha512 st nowMs method [] rfl h0
    rcases hp : privateMethod sha256 hmacSha512 st nowMs method [] with ⟨req, st'⟩
    rw [hp] at h1 h3
    dsimp only at h1 h3
    have hext : extractNonce req = st.lastNonce + 1 := by
      unfold extractNonce
      rw [h3]
    have hne' : st'.lastNonce ≠ 0 := by rw [h1]; simp
    rw [issueCalls, hp]
    dsimp only
    rw [hext, ih st' hne', h1]
    dsimp only
    rw [List.length_cons, List.range_succ_eq_map, List.map_cons, List.map_map]
    congr 1
    exact List.map_congr_left (fun a _ => by simp only [Function.comp_apply]; omega)

/-- C1 (code-bug evidence): on the response body
`{"error":["EA","EB"]}` the code yields RemoteError("B") and not
RemoteError("A"): `return false` inside forEach cannot break the loop, so
the LAST entry whose first character is 'E' determines the code, while the
claim (and the scan's evident intent to stop at the first match) says the
FIRST such entry does. -/
theorem C1_error_scan_last_entry_wins :
    classifyBody (.jobj [("error", .jarr [.jstr "EA", .jstr "EB"])])
        = .ok (.remoteError "B")
    ∧ ¬ classifyBody (.jobj [("error", .jarr [.jstr "EA", .jstr "EB"])])
        = .ok (.remoteError "A") := by
  refine ⟨rfl, fun h => ?_⟩
  have h2 : Except.ok (ε := Unit) (Classified.remoteError "B")
      = .ok (.remoteError "A") :=
    (rfl : classifyBody (.jobj [("error", .jarr [.jstr "EA", .jstr "EB"])])
        = .ok (.remoteError "B")).symm.trans h
  injection h2 with h3
  injection h3 with h4
  exact absurd h4 (by decide)

/-- C2: the signature computed by _getMessageSignature equals
base64(HMAC-SHA512(key = base64-decoded secret, message = path ++
SHA256(decimal nonce string ++ URL-encoded params))) with the SHA-256
digest concatenated as raw bytes: the detour through Node's 'binary'
(latin1) string encoding is lossless, provided the abstract SHA-256
returns bytes and the path is latin1-representable (every path the client
builds is ASCII). The parameter serialization (stringifyParams) follows
the mapping's insertion order by construction. -/
theorem C2_signature_matches_spec (sha256 : List Nat → List Nat)
    (hmacSha512 : List Nat → List Nat → List Nat)
    (secretB64 path : String) (request : List (String × ParamVal)) (n : Nat)
    (hsha : ∀ bs, ∀ b ∈ sha256 bs, b < 256)
    (hpath : ∀ c ∈ path.data, c.toNat < 256) :
    getMessageSignature sha256 hmacSha512 secretB64 path request (.pnum n)
      = signatureSpec sha256 hmacSha512 secretB64 path request n := by
  unfold getMessageSignature signatureSpec
  dsimp only [valStr]
  rw [latin1Encode_append_decode path _ hpath (hsha _)]

/-- Witness for C2 at concrete abstract-hash instantiations and a concrete
call shape. -/
theorem C2_signature_matches_spec_witness :
    (∀ bs, ∀ b ∈ (fun _ : List Nat => List.replicate 32 7) bs, b < 256) ∧
    (∀ c ∈ "/0/private/Balance".data, c.toNat < 256) ∧
    getMessageSignature (fun _ => List.replicate 32 7) (fun _ m => m)
      "c2VjcmV0" "/0/private/Balance" [("nonce", .pnum 5)] (.pnum 5)
      = signatureSpec (fun _ => List.replicate 32 7) (fun _ m => m)
        "c2VjcmV0" "/0/private/Balance" [("nonce", .pnum 5)] 5 := by
  have hs : ∀ bs, ∀ b ∈ (fun _ : List Nat => List.replicate 32 7) bs, b < 256 := by
    intro bs b hb
    simp only [List.mem_replicate] at hb
    omega
  have hp : ∀ c ∈ "/0/private/Balance".data, c.toNat < 256 := by decide
  exact ⟨hs, hp, C2_signature_matches_spec _ _ _ _ _ _ hs hp⟩

/-- C3: from one client instance constructed at clock reading t0 > 0
(Date.now() in milliseconds), any run of private calls without
caller-supplied nonces yields exactly one nonce per call, pairwise
strictly increasing, and the first issued nonce is t0 * 1000 + 1 —
derived from the construction-time clock spoofed to microsecond
granularity. -/
theorem C3_nonces_strictly_increase (sha256 : List Nat → List Nat)
    (hmacSha512 : List Nat → List Nat → List Nat)
    (key secret : String) (options : KrakenOptions) (t0 : Nat) (h : 0 < t0)
    (method : String) (nows : List Nat) :
    (issueCalls sha256 hmacSha512 method (mkClient key secret options t0) nows).length
        = nows.length ∧
    List.Pairwise (· < ·)
      (issueCalls sha256 hmacSha512 method (mkClient key secret options t0) nows) ∧
    (issueCalls sha256 hmacSha512 method (mkClient key secret options t0) nows).head?
        = nows.head?.map fun _ => t0 * 1000 + 1 := by
  have h0 : (mkClient key secret options t0).lastNonce ≠ 0 := by
    simp only [mkClient]
    omega
  rw [issueCalls_formula sha256 hmacSha512 method nows _ h0]
  refine ⟨by simp, ?_, ?_⟩
  · exact List.Pairwise.map _ (fun a b hab => by omega) (List.pairwise_lt_range _)
  · cases nows with
    | nil => rfl
    | cons a l =>
      rw [List.length_cons, List.range_succ_eq_map, List.map_cons]
      simp [mkClient]

/-- Witness for C3: three calls from a client constructed at time 7. -/
theorem C3_nonces_strictly_increase_witness :
    0 < 7 ∧
    ((issueCalls (fun _ => []) (fun _ _ => []) "Balance" (mkClient "k" "s" {} 7)
        [1, 2, 3]).length = [1, 2, 3].length ∧
     List.Pairwise (· < ·)
       (issueCalls (fun _ => []) (fun _ _ => []) "Balance" (mkClient "k" "s" {} 7) [1, 2, 3]) ∧
     (issueCalls (fun _ => []) (fun _ _ => []) "Balance" (mkClient "k" "s" {} 7)
        [1, 2, 3]).head? = [1, 2, 3].head?.map fun _ => 7 * 1000 + 1) :=
  ⟨by decide,
   C3_nonces_strictly_increase (fun _ => []) (fun _ _ => []) "k" "s" {} 7 (by decide)
     "Balance" [1, 2, 3]⟩

/-- C4 (counterexample): on a successful body with a callback present, the
promise does NOT resolve with no value — it resolves with the success
value, which is simultaneously delivered to the callback, contradicting
the claim that the pair is never also delivered through the promise. -/
theorem C4_counterexample :
    handleOutcome
        (.parsed (.jobj [("error", .jarr []), ("result", .jobj [("foo", .jnum 1)])])) true
      = .ok { promise := .resolvedSome (.jobj [("foo", .jnum 1)]),
              callbackArgs := some (none, some (.jobj [("foo", .jnum 1)])) } ∧
    (PromiseResult.resolvedSome (.jobj [("foo", .jnum 1)]) ≠ .resolvedNone) :=
  ⟨rfl, fun hx => by cases hx⟩

/-- C4 (amended): every outcome the handler completes on is delivered
through well-defined channels: a failure goes through exactly one channel
(the callback, with the promise resolving with no value, when a callback
is present; the promise rejection otherwise), while a success resolves the
promise with the value and additionally invokes the callback with
(null, value) when one is present. -/
theorem C4_delivery_channels (o : CallOutcome) (cb : Bool) (d : Delivery)
    (h : handleOutcome o cb = .ok d) :
    (∃ e, (if cb then d.promise = .resolvedNone ∧ d.callbackArgs = some (some e, none)
           else d.promise = .rejected e ∧ d.callbackArgs = none))
    ∨ (∃ v, d.promise = .resolvedSome v
        ∧ d.callbackArgs = if cb then some (none, some v) else none) := by
  have hfail : ∀ e : KrakenError, d = deliverFailure e cb →
      (∃ e, (if cb then d.promise = .resolvedNone ∧ d.callbackArgs = some (some e, none)
             else d.promise = .rejected e ∧ d.callbackArgs = none)) := by
    intro e hd
    refine ⟨e, ?_⟩
    cases cb <;> simp [hd, deliverFailure]
  have hsucc : ∀ v : JSValue, d = deliverSuccess v cb →
      (∃ v, d.promise = .resolvedSome v
        ∧ d.callbackArgs = if cb then some (none, some v) else none) := by
    intro v hd
    exact ⟨v, by simp [hd, deliverSuccess], by simp [hd, deliverSuccess]⟩
  cases o with
  | transportErr raw =>
    left
    apply hfail (.serverError raw)
    simpa [handleOutcome] using h.symm
  | parseFail body =>
    left
    apply hfail (.parseError body)
    simpa [handleOutcome] using h.symm
  | parsed data =>
    simp only [handleOutcome] at h
    cases hc : classifyBody data with
    | error u => rw [hc] at h; simp [Except.map] at h
    | ok c =>
      rw [hc] at h
      simp only [Except.map] at h
      cases c with
      | remoteError code =>
        left
        apply hfail (.remoteError code)
        injection h with h'
        exact h'.symm
      | unknownError raw =>
        left
        apply hfail (.unknownError raw)
        injection h with h'
        exact h'.symm
      | success v =>
        right
        apply hsucc v
        injection h with h'
        exact h'.symm

/-- Witness for C4: a transport failure with no callback rejects the
promise and invokes no callback. -/
theorem C4_delivery_channels_witness :
    handleOutcome (.transportErr "boom") false
      = .ok { promise := .rejected (.serverError "boom"), callbackArgs := none } ∧
    ((∃ e, (if false then
              ({ promise := .rejected (.serverError "boom"), callbackArgs := none } :
                Delivery).promise = .resolvedNone ∧
              ({ promise := .rejected (.serverError "boom"), callbackArgs := none } :
                Delivery).callbackArgs = some (some e, none)
            else
              ({ promise := .rejected (.serverError "boom"), callbackArgs := none } :
                Delivery).promise = .rejected e ∧
              ({ promise := .rejected (.serverError "boom"), callbackArgs := none } :
                Delivery).callbackArgs = none))
     ∨ (∃ v, ({ promise := .rejected (.serverError "boom"), callbackArgs := none } :
              Delivery).promise = .resolvedSome v
         ∧ ({ promise := .rejected (.serverError "boom"), callbackArgs := none } :
              Delivery).callbackArgs = if false then some (none, some v) else none)) :=
  ⟨rfl, C4_delivery_channels (.transportErr "boom") false _ rfl⟩

/-- C5: a method name in neither catalog makes api() throw synchronously —
the dispatcher returns the thrown Error naming the method, before any
request value is constructed, so no network call can be issued and the
failure is not turned into a promise rejection. -/
theorem C5_unknown_method_thrown (sha256 : List Nat → List Nat)
    (hmacSha512 : List Nat → List Nat → List Nat) (st : ClientState) (nowMs : Nat)
    (method : String) (params : List (String × ParamVal))
    (hpub : AVAILABLE_METHODS_public.contains method = false)
    (hpriv : AVAILABLE_METHODS_private.contains method = false) :
    api sha256 hmacSha512 st nowMs method params
      = .thrown (method ++ " is not a valid API method.") := by
  unfold api
  rw [hpub, hpriv]
  rw [if_neg (by simp), if_neg (by simp)]

/-- Witness for C5 at the unknown method name "Foo". -/
theorem C5_unknown_method_thrown_witness :
    AVAILABLE_METHODS_public.contains "Foo" = false ∧
    AVAILABLE_METHODS_private.contains "Foo" = false ∧
    api (fun _ => []) (fun _ _ => []) (mkClient "k" "s" {} 7) 7 "Foo" []
      = .thrown "Foo is not a valid API method." :=
  ⟨by decide, by decide,
   C5_unknown_method_thrown (fun _ => []) (fun _ _ => []) (mkClient "k" "s" {} 7) 7
     "Foo" [] (by decide) (by decide)⟩

/-- C6 (counterexample): on `{"error":[],"result":0}` the call succeeds
with the WHOLE body, not with the present result field 0 — `data.result
|| data` falls through to data whenever the result value is falsy. -/
theorem C6_counterexample :
    classifyBody (.jobj [("error", .jarr []), ("result", .jnum 0)])
        = .ok (.success (.jobj [("error", .jarr []), ("result", .jnum 0)]))
    ∧ ¬ classifyBody (.jobj [("error", .jarr []), ("result", .jnum 0)])
        = .ok (.success (.jnum 0)) := by
  refine ⟨rfl, fun h => ?_⟩
  have h2 : Except.ok (ε := Unit)
      (Classified.success (.jobj [("error", .jarr []), ("result", .jnum 0)]))
      = .ok (.success (.jnum 0)) :=
    (rfl : classifyBody (.jobj [("error", .jarr []), ("result", .jnum 0)])
        = .ok (.success (.jobj [("error", .jarr []), ("result", .jnum 0)]))).symm.trans h
  injection h2 with h3
  injection h3 with h4
  cases h4

/-- C6 (amended): a parsed body not classified as an error (its error
field, read without throwing, is not a non-empty array) succeeds with
`jsOr rf data`: the result field when it is present AND truthy, else the
entire parsed body. -/
theorem C6_success_value (data : JSValue) (ef rf : Option JSValue)
    (hef : getField data "error" = .ok ef)
    (hne : isNonEmptyArr ef = false)
    (hrf : getField data "result" = .ok rf) :
    classifyBody data = .ok (.success (jsOr rf data)) :=
  classifyBody_success data ef rf hef hne hrf

/-- Witness for C6 at the specification's own example
`{"error":[],"result":{"foo":1}}`, where the truthy result is returned. -/
theorem C6_success_value_witness :
    getField (.jobj [("error", .jarr []), ("result", .jobj [("foo", .jnum 1)])]) "error"
        = .ok (some (.jarr [])) ∧
    isNonEmptyArr (some (.jarr [])) = false ∧
    getField (.jobj [("error", .jarr []), ("result", .jobj [("foo", .jnum 1)])]) "result"
        = .ok (some (.jobj [("foo", .jnum 1)])) ∧
    classifyBody (.jobj [("error", .jarr []), ("result", .jobj [("foo", .jnum 1)])])
        = .ok (.success (jsOr (some (.jobj [("foo", .jnum 1)]))
            (.jobj [("error", .jarr []), ("result", .jobj [("foo", .jnum 1)])]))) :=
  ⟨rfl, rfl, rfl, C6_success_value _ _ _ rfl rfl rfl⟩

/-- C7: a private call whose parameter bag carries a truthy nonce leaves
the client state (nonce counter and configuration) exactly as it was, and
transmits the caller's nonce as-is — no validation against the previous
nonce happens, and the form differs from the input params only by the otp
injection. -/
theorem C7_supplied_nonce_preserves_state (sha256 : List Nat → List Nat)
    (hmacSha512 : List Nat → List Nat → List Nat) (st : ClientState) (nowMs : Nat)
    (method : String) (params : List (String × ParamVal))
    (hn : paramTruthy (lookupKV params "nonce") = true) :
    (privateMethod sha256 hmacSha512 st nowMs method params).2 = st ∧
    (privateMethod sha256 hmacSha512 st nowMs method params).1.form
        = injectOtp st.config params ∧
    lookupKV (privateMethod sha256 hmacSha512 st nowMs method params).1.form "nonce"
        = lookupKV params "nonce" :=
  privateMethod_supplied sha256 hmacSha512 st nowMs method params hn

/-- Witness for C7: a caller-supplied nonce 5, far below the counter value
7000 of a client constructed at time 7, is accepted and the state is
untouched. -/
theorem C7_supplied_nonce_preserves_state_witness :
    paramTruthy (lookupKV [("nonce", .pnum 5)] "nonce") = true ∧
    ((privateMethod (fun _ => []) (fun _ _ => []) (mkClient "k" "s" {} 7) 9 "Balance"
        [("nonce", .pnum 5)]).2 = mkClient "k" "s" {} 7 ∧
     (privateMethod (fun _ => []) (fun _ _ => []) (mkClient "k" "s" {} 7) 9 "Balance"
        [("nonce", .pnum 5)]).1.form
        = injectOtp (mkClient "k" "s" {} 7).config [("nonce", .pnum 5)] ∧
     lookupKV (privateMethod (fun _ => []) (fun _ _ => []) (mkClient "k" "s" {} 7) 9
        "Balance" [("nonce", .pnum 5)]).1.form "nonce"
        = lookupKV [("nonce", .pnum 5)] "nonce") :=
  ⟨rfl,
   C7_supplied_nonce_preserves_state (fun _ => []) (fun _ _ => []) (mkClient "k" "s" {} 7)
     9 "Balance" [("nonce", .pnum 5)] rfl⟩

/-- C8: a private call with no caller-supplied nonce allocates exactly one
nonce (the counter advances by one, to lastNonce + 1), that same value is
in the transmitted form body, and the API-Sign header is the signature of
the finalized path and the very parameter mapping that is transmitted —
i.e. computed after nonce and otp injection. -/
theorem C8_fresh_nonce_signed_and_sent (sha256 : List Nat → List Nat)
    (hmacSha512 : List Nat → List Nat → List Nat) (st : ClientState) (nowMs : Nat)
    (method : String) (params : List (String × ParamVal))
    (hn : lookupKV params "nonce" = none)
    (h0 : st.lastNonce ≠ 0) :
    (privateMethod sha256 hmacSha512 st nowMs method params).2.lastNonce
        = st.lastNonce + 1 ∧
    lookupKV (privateMethod sha256 hmacSha512 st nowMs method params).1.form "nonce"
        = some (.pnum (st.lastNonce + 1)) ∧
    (privateMethod sha256 hmacSha512 st nowMs method params).1.form
        = injectOtp st.config (setKV params "nonce" (.pnum (st.lastNonce + 1))) ∧
    lookupKV (privateMethod sha256 hmacSha512 st nowMs method params).1.headers "API-Sign"
        = some (getMessageSignature sha256 hmacSha512 st.config.secret
            ("/" ++ st.config.version ++ "/private/" ++ method)
            (privateMethod sha256 hmacSha512 st nowMs method params).1.form
            (.pnum (st.lastNonce + 1))) := by
  have hn' : paramTruthy (lookupKV params "nonce") = false := by rw [hn]; rfl
  obtain ⟨h1, h2, h3, h4⟩ :=
    privateMethod_fresh sha256 hmacSha512 st nowMs method params hn' h0
  exact ⟨by rw [h1], h3, h2, h4⟩

/-- Witness for C8: a Balance call with empty params from a client
constructed at time 7. -/
theorem C8_fresh_nonce_signed_and_sent_witness :
    lookupKV ([] : List (String × ParamVal)) "nonce" = none ∧
    (mkClient "k" "s" {} 7).lastNonce ≠ 0 ∧
    ((privateMethod (fun _ => []) (fun _ _ => []) (mkClient "k" "s" {} 7) 9 "Balance"
        []).2.lastNonce = (mkClient "k" "s" {} 7).lastNonce + 1 ∧
     lookupKV (privateMethod (fun _ => []) (fun _ _ => []) (mkClient "k" "s" {} 7) 9
        "Balance" []).1.form "nonce"
        = some (.pnum ((mkClient "k" "s" {} 7).lastNonce + 1)) ∧
     (privateMethod (fun _ => []) (fun _ _ => []) (mkClient "k" "s" {} 7) 9 "Balance"
        []).1.form
        = injectOtp (mkClient "k" "s" {} 7).config
            (setKV ([] : List (String × ParamVal)) "nonce"
              (ParamVal.pnum ((mkClient "k" "s" {} 7).lastNonce + 1))) ∧
     lookupKV (privateMethod (fun _ => []) (fun _ _ => []) (mkClient "k" "s" {} 7) 9
        "Balance" []).1.headers "API-Sign"
        = some (getMessageSignature (fun _ => []) (fun _ _ => [])
            (mkClient "k" "s" {} 7).config.secret
            ("/" ++ (mkClient "k" "s" {} 7).config.version ++ "/private/" ++ "Balance")
            (privateMethod (fun _ => []) (fun _ _ => []) (mkClient "k" "s" {} 7) 9
              "Balance" []).1.form
            (.pnum ((mkClient "k" "s" {} 7).lastNonce + 1)))) :=
  ⟨rfl, by decide,
   C8_fresh_nonce_signed_and_sent (fun _ => []) (fun _ _ => []) (mkClient "k" "s" {} 7) 9
     "Balance" [] rfl (by decide)⟩

/-- C9: a caller-supplied falsy nonce (the number 0 or the empty string)
is treated as absent: params.nonce is overwritten with the freshly
allocated lastNonce + 1, the counter advances, and since the transmitted
nonce is nonzero the caller's 0 is never transmitted. -/
theorem C9_falsy_nonce_overwritten (sha256 : List Nat → List Nat)
    (hmacSha512 : List Nat → List Nat → List Nat) (st : ClientState) (nowMs : Nat)
    (method : String) (params : List (String × ParamVal)) (v : ParamVal)
    (hv : lookupKV params "nonce" = some v)
    (hfalsy : paramTruthy (some v) = false)
    (h0 : st.lastNonce ≠ 0) :
    (privateMethod sha256 hmacSha512 st nowMs method params).2.lastNonce
        = st.lastNonce + 1 ∧
    lookupKV (privateMethod sha256 hmacSha512 st nowMs method params).1.form "nonce"
        = some (.pnum (st.lastNonce + 1)) ∧
    st.lastNonce + 1 ≠ 0 := by
  have hn' : paramTruthy (lookupKV params "nonce") = false := by rw [hv]; exact hfalsy
  obtain ⟨h1, _, h3, _⟩ :=
    privateMethod_fresh sha256 hmacSha512 st nowMs method params hn' h0
  exact ⟨by rw [h1], h3, by omega⟩

/-- Witness for C9: caller supplies nonce 0; the transmitted nonce is
7001. -/
theorem C9_falsy_nonce_overwritten_witness :
    lookupKV [("nonce", ParamVal.pnum 0)] "nonce" = some (ParamVal.pnum 0) ∧
    paramTruthy (some (ParamVal.pnum 0)) = false ∧
    (mkClient "k" "s" {} 7).lastNonce ≠ 0 ∧
    ((privateMethod (fun _ => []) (fun _ _ => []) (mkClient "k" "s" {} 7) 9 "Balance"
        [("nonce", .pnum 0)]).2.lastNonce = (mkClient "k" "s" {} 7).lastNonce + 1 ∧
     lookupKV (privateMethod (fun _ => []) (fun _ _ => []) (mkClient "k" "s" {} 7) 9
        "Balance" [("nonce", .pnum 0)]).1.form "nonce"
        = some (.pnum ((mkClient "k" "s" {} 7).lastNonce + 1)) ∧
     (mkClient "k" "s" {} 7).lastNonce + 1 ≠ 0) :=
  ⟨rfl, rfl, by decide,
   C9_falsy_nonce_overwritten (fun _ => []) (fun _ _ => []) (mkClient "k" "s" {} 7) 9
     "Balance" [("nonce", .pnum 0)] (.pnum 0) rfl rfl (by decide)⟩

/-- C10: a parsed body whose error field (read without throwing) is
absent, not an array, or an empty array is classified as a success; and
conversely any RemoteError or UnknownRemoteError classification can only
arise when the error field is a non-empty array. -/
theorem C10_only_nonempty_error_array_fails (data : JSValue) (ef : Option JSValue)
    (hef : getField data "error" = .ok ef) :
    (isNonEmptyArr ef = false → ∃ v, classifyBody data = .ok (.success v)) ∧
    (∀ c, classifyBody data = .ok c → isErrorClass c = true → isNonEmptyArr ef = true) := by
  constructor
  · intro hne
    obtain ⟨rf, hrf⟩ := getField_result_ok data ef hef
    exact ⟨_, classifyBody_success data ef rf hef hne hrf⟩
  · intro c hc herr
    exact classifyBody_err_shape data ef c hef hc herr

/-- Witness for C10 at a body whose error field is a plain string. -/
theorem C10_only_nonempty_error_array_fails_witness :
    getField (.jobj [("error", .jstr "oops")]) "error" = .ok (some (.jstr "oops")) ∧
    ((isNonEmptyArr (some (.jstr "oops")) = false →
        ∃ v, classifyBody (.jobj [("error", .jstr "oops")]) = .ok (.success v)) ∧
     (∀ c, classifyBody (.jobj [("error", .jstr "oops")]) = .ok c →
        isErrorClass c = true → isNonEmptyArr (some (.jstr "oops")) = true)) :=
  ⟨rfl, C10_only_nonempty_error_array_fails (.jobj [("error", .jstr "oops")]) _ rfl⟩
